import Mathlib

/-!
Verification of the academic-planner system: the `AcademicItem` hierarchy
(`Assignment`, `Project`, `Exam` in `assignment.py` / `academic_item.py`),
the `AcademicPlanner` aggregate queries, and the JSON/CSV persistence layer
(`academic_planner.py`, `academic_io.py`).

Modelling conventions:
* Python `float` is modelled by `ℝ` where genuinely real-valued arithmetic
  occurs (`team_size ** 0.7`, `round(x, 2)`), and by `ℚ` for stored numeric
  fields (weights, scores, estimated hours), which the code only compares,
  adds and multiplies.
* `round(x, 2)` is modelled by `round2` below.  Python's `round` uses
  banker's rounding at exact half-ties; no value in any claim sits on a tie.
* `datetime.now().date()` is modelled by an explicit `today : ℤ` parameter
  (a day number); `datetime.now().strftime('%Y-%m-%d')` by an explicit
  `todayStr : String` parameter.  `(due - today).days` becomes integer
  subtraction of day numbers.
* Python exceptions are modelled with `Except`; functions that mutate and
  may also raise (`mark_completed`) return the post-state paired with an
  optional error.
* Core `String` routines (`toUpper`, `splitOn`, `toNat?`) do not reduce in
  the kernel, so equivalent structural-recursive versions over `String.data`
  are defined here and used throughout.
-/

namespace AcademicPlannerModel

/-! ## String primitives (ASCII models of `str.upper`, `str.lower`,
`str.strip`, substring containment, and digit parsing) -/

def charUpper (c : Char) : Char :=
  if 'a' ≤ c ∧ c ≤ 'z' then Char.ofNat (c.toNat - 32) else c

def charLower (c : Char) : Char :=
  if 'A' ≤ c ∧ c ≤ 'Z' then Char.ofNat (c.toNat + 32) else c

def strUpper (s : String) : String := ⟨s.data.map charUpper⟩

def strLower (s : String) : String := ⟨s.data.map charLower⟩

def strTrim (s : String) : String :=
  ⟨((s.data.dropWhile Char.isWhitespace).reverse.dropWhile Char.isWhitespace).reverse⟩

/-- `startsWith l pat`: `pat` is an initial segment of `l`. -/
def startsWith : List Char → List Char → Bool
  | _, [] => true
  | [], _ :: _ => false
  | a :: as, b :: bs => a == b && startsWith as bs

/-- Model of Python's `pat in s` substring test. -/
def strContains (s pat : String) : Bool := go s.data pat.data
where go : List Char → List Char → Bool
  | [], pat => pat.isEmpty
  | c :: cs, pat => startsWith (c :: cs) pat || go cs pat

/-- Value of a digit string (callers check `all Char.isDigit` first). -/
def digitsVal (l : List Char) : ℕ := l.foldl (fun n c => n * 10 + (c.toNat - 48)) 0

/-- Split a character list on `'-'` (model of `str.split('-')` as used by
`strptime('%Y-%m-%d')`'s anchored pattern). -/
def splitDash : List Char → List (List Char)
  | [] => [[]]
  | c :: cs =>
    let rest := splitDash cs
    if c = '-' then [] :: rest
    else match rest with
      | [] => [[c]]
      | seg :: segs => (c :: seg) :: segs

/-! ## Dates: `datetime.strptime(s, '%Y-%m-%d')` and day numbers -/

def isLeapYear (y : ℕ) : Bool := y % 4 == 0 && (y % 100 != 0 || y % 400 == 0)

def daysInMonth (y m : ℕ) : ℕ :=
  if m = 2 then (if isLeapYear y then 29 else 28)
  else if m = 4 ∨ m = 6 ∨ m = 9 ∨ m = 11 then 30
  else 31

/-- Day number of a civil date (days since 1970-01-01, Gregorian). -/
def dayNumber (y m d : ℕ) : ℤ :=
  let y' := if m ≤ 2 then y - 1 else y
  let era := y' / 400
  let yoe := y' % 400
  let mp := (m + 9) % 12
  let doy := (153 * mp + 2) / 5 + d - 1
  let doe := yoe * 365 + yoe / 4 - yoe / 100 + doy
  (era : ℤ) * 146097 + (doe : ℤ) - 719468

/-- Model of `datetime.strptime(s, '%Y-%m-%d').date()`: exactly four year
digits, one or two month digits in 1..12, one or two day digits valid for
the month, year at least `datetime.MINYEAR = 1`; anything else raises
(`none`).  Returns the day number of the parsed date. -/
def parseDate (s : String) : Option ℤ :=
  match splitDash s.data with
  | [ys, ms, ds] =>
    if ys.length = 4 ∧ ys.all Char.isDigit ∧
       1 ≤ ms.length ∧ ms.length ≤ 2 ∧ ms.all Char.isDigit ∧
       1 ≤ ds.length ∧ ds.length ≤ 2 ∧ ds.all Char.isDigit then
      let y := digitsVal ys
      let m := digitsVal ms
      let d := digitsVal ds
      if 1 ≤ y ∧ 1 ≤ m ∧ m ≤ 12 ∧ 1 ≤ d ∧ d ≤ daysInMonth y m then
        some (dayNumber y m d)
      else none
    else none
  | _ => none

/-! ## Rounding: Python `round(x, 2)` over the reals -/

noncomputable def round2 (x : ℝ) : ℝ := ((round (x * 100) : ℤ) : ℝ) / 100

/-! ## The data model: `AcademicItem` and its three variants -/

inductive Status
  | not_started
  | in_progress
  | completed
deriving DecidableEq, Repr

inductive ExamType
  | midterm
  | final
  | quiz
  | exam
deriving DecidableEq, Repr

def examTypeStr : ExamType → String
  | .midterm => "midterm"
  | .final => "final"
  | .quiz => "quiz"
  | .exam => "exam"

def parseExamType (s : String) : Option ExamType :=
  if strLower s = "midterm" then some .midterm
  else if strLower s = "final" then some .final
  else if strLower s = "quiz" then some .quiz
  else if strLower s = "exam" then some .exam
  else none

/-- Variant-specific state.  `assignment` carries `_estimated_hours`,
`_notes`, `_instructions`; `project` carries `_num_milestones`,
`_team_size`, `_milestones` (title, due date pairs; the stored
`completed` flag is constantly `False` and omitted), `_repository_url`;
`exam` carries `_exam_type`, `_num_chapters`, `_study_guide`,
`_location`. -/
inductive ItemKind
  | assignment (estimated_hours : ℚ) (notes instructions : String)
  | project (num_milestones team_size : ℕ) (milestones : List (String × String))
      (repository_url : String)
  | exam (exam_type : ExamType) (num_chapters : ℕ) (study_guide location : String)
deriving DecidableEq, Repr

/-- Common `AcademicItem` state. -/
structure Item where
  title : String
  due_date : String
  course_code : String
  weight : ℚ
  status : Status
  score : Option ℚ
  submission_date : Option String
  kind : ItemKind
deriving DecidableEq, Repr

structure Planner where
  student_name : String
  items : List Item
deriving DecidableEq, Repr

/-! ## Polymorphic item operations -/

/-- `calculate_time_commitment`, split out over the variant data. -/
noncomputable def kindTimeCommitment : ItemKind → ℝ
  | .assignment est _ _ => (est : ℝ)
  | .project m t _ _ =>
    let total_hours : ℝ := 15.0 * m
    let team_factor : ℝ := if t = 1 then 1.0 else (t : ℝ) ^ (0.7 : ℝ)
    round2 (total_hours / team_factor)
  | .exam et c _ _ =>
    let base : ℝ := if et = .quiz then 2.0 else if et = .final then 4.0 else 3.0
    round2 (base * c)

noncomputable def calculate_time_commitment (i : Item) : ℝ := kindTimeCommitment i.kind

/-- The priority ladder of each variant, given `days_until_due` and the
item's weight (the code runs this only on non-completed items with a
parseable due date). -/
def kindPriority (k : ItemKind) (weight : ℚ) (days : ℤ) : String :=
  match k with
  | .assignment _ _ _ =>
    if days < 0 then "critical"
    else if days ≤ 2 ∧ 20 ≤ weight then "critical"
    else if days ≤ 5 ∨ 30 ≤ weight then "high"
    else if days ≤ 10 ∨ 15 ≤ weight then "medium"
    else "low"
  | .project _ _ _ _ =>
    if days < 0 then "critical"
    else if days ≤ 5 then "critical"
    else if days ≤ 10 ∨ 30 ≤ weight then "high"
    else if days ≤ 20 then "medium"
    else "low"
  | .exam _ _ _ _ =>
    if days < 0 then "critical"
    else if days ≤ 7 then "critical"
    else if days ≤ 14 then "high"
    else "medium"

/-- `get_priority`: completed items short-circuit to `"low"`; otherwise the
due date is parsed (raising on failure) and the variant ladder applies. -/
def get_priority (today : ℤ) (i : Item) : Except Unit String :=
  if i.status = .completed then .ok "low"
  else
    match parseDate i.due_date with
    | none => .error ()
    | some due => .ok (kindPriority i.kind i.weight (due - today))

def get_item_type (i : Item) : String :=
  match i.kind with
  | .assignment _ _ _ => "ASSIGNMENT"
  | .project _ _ _ _ => "PROJECT"
  | .exam et _ _ _ => "EXAM-" ++ strUpper (examTypeStr et)

/-- `mark_completed(score, submission_date)`: validates the score first
(raising with no mutation), then sets status and score, then handles the
submission date — a malformed date raises *after* the mutation.  Returns
the post-state and `some ()` when a `ValueError` is raised. -/
def mark_completed (todayStr : String) (score : ℚ) (submission_date : Option String)
    (i : Item) : Item × Option Unit :=
  if ¬(0 ≤ score ∧ score ≤ 100) then (i, some ())
  else
    let i1 : Item := { i with status := .completed, score := some score }
    match submission_date with
    | some s =>
      if s = "" then ({ i1 with submission_date := some todayStr }, none)
      else
        match parseDate s with
        | some _ => ({ i1 with submission_date := some s }, none)
        | none => (i1, some ())
    | none => ({ i1 with submission_date := some todayStr }, none)

/-! ## Planner aggregate queries -/

/-- Loop body of `get_total_workload`. -/
noncomputable def workloadStep (total : ℝ) (i : Item) : ℝ :=
  if i.status ≠ .completed then total + calculate_time_commitment i else total

/-- `get_total_workload`: sum `calculate_time_commitment()` over items whose
status is not `completed`, rounded to two decimals. -/
noncomputable def get_total_workload (p : Planner) : ℝ :=
  round2 (p.items.foldl workloadStep 0)

/-- One entry of `get_upcoming_deadlines`' result: the dict
`{title, due_date, type, hours_needed, priority}` (the `type` key is the
field `item_type` here). -/
structure Deadline where
  title : String
  due_date : String
  item_type : String
  hours_needed : ℝ
  priority : String

/-- Sort key comparison used by `results.sort(key=lambda d: d["due_date"])`:
lexicographic order on the due-date strings. -/
def lexLe : List Char → List Char → Bool
  | [], _ => true
  | _ :: _, [] => false
  | a :: as, b :: bs => if a < b then true else if a = b then lexLe as bs else false

def Deadline.le (a b : Deadline) : Prop := lexLe a.due_date.data b.due_date.data = true

instance : DecidableRel Deadline.le := fun _ _ =>
  inferInstanceAs (Decidable (_ = true))

noncomputable def mkDeadline (today : ℤ) (i : Item) : Deadline :=
  { title := i.title
    due_date := i.due_date
    item_type := get_item_type i
    hours_needed := calculate_time_commitment i
    priority := match get_priority today i with | .ok s => s | .error _ => "low" }

/-- `get_upcoming_deadlines(days_ahead)`: raises on non-positive
`days_ahead`; collects every item whose due date parses into
`[today, today + days_ahead]` (items with unparseable dates are skipped),
then sorts by the due-date string.  Python's stable `list.sort` is modelled
by `List.insertionSort`; they agree up to the order of entries with equal
keys, which no claim constrains. -/
noncomputable def get_upcoming_deadlines (today : ℤ) (days_ahead : ℤ) (p : Planner) :
    Except Unit (List Deadline) :=
  if days_ahead ≤ 0 then .error ()
  else
    let cutoff := today + days_ahead
    let results := p.items.filterMap (fun i =>
      match parseDate i.due_date with
      | none => none
      | some due =>
        if today ≤ due ∧ due ≤ cutoff then some (mkDeadline today i) else none)
    .ok (results.insertionSort Deadline.le)

/-- `calculate_weekly_workload(weeks_ahead)`: raises on non-positive
`weeks_ahead`; otherwise buckets every item whose due date parses and is
not in the past into week `days_delta // 7`, accumulating
`calculate_time_commitment()`, and finally rounds each bucket to two
decimals.  The result dict `{"Week 1": h₁, ...}` is modelled as an
association list in key order (its keys are exactly `"Week 1"` ..
`"Week n"`, fixed up front, as in the code). -/
noncomputable def weekStep (today : ℤ) (w : ℕ) (acc : List ℝ) (i : Item) : List ℝ :=
  match parseDate i.due_date with
  | none => acc
  | some due =>
    if due - today < 0 then acc
    else if (due - today).toNat / 7 < w then
      acc.set ((due - today).toNat / 7)
        (acc.getD ((due - today).toNat / 7) 0 + calculate_time_commitment i)
    else acc

noncomputable def calculate_weekly_workload (today : ℤ) (weeks_ahead : ℤ) (p : Planner) :
    Except Unit (List (String × ℝ)) :=
  if weeks_ahead ≤ 0 then .error ()
  else
    let w := weeks_ahead.toNat
    let buckets := p.items.foldl (weekStep today w) (List.replicate w (0 : ℝ))
    .ok ((List.range w).map (fun k => ("Week " ++ toString (k + 1), round2 (buckets.getD k 0))))

/-- The week bucket an item lands in: due date parses, is not past, and
`days_delta // 7 = k`.  Used to state what `calculate_weekly_workload`
accumulates. -/
def inWeekBucket (today : ℤ) (k : ℕ) (i : Item) : Bool :=
  match parseDate i.due_date with
  | none => false
  | some due => decide (0 ≤ due - today ∧ (due - today).toNat / 7 = k)

/-! ## `academic_io.export_deadlines_to_csv` -/

/-- One CSV row as passed to `csv.DictWriter.writerow`: the deadline dict's
fields, with `course_code` taken by `d.get("course_code", "")` — always
`""`, because `get_upcoming_deadlines` entries carry no such key. -/
structure CsvRow where
  due_date : String
  title : String
  item_type : String
  course_code : String
  hours_needed : ℝ
  priority : String

structure CsvFile where
  header : List String
  rows : List CsvRow

def csvRowOfDeadline (d : Deadline) : CsvRow :=
  { due_date := d.due_date
    title := d.title
    item_type := d.item_type
    course_code := ""
    hours_needed := d.hours_needed
    priority := d.priority }

/-- `export_deadlines_to_csv(planner, path, days_ahead)`: fetches the
upcoming deadlines (propagating their validation error), writes the fixed
header, then one row per deadline in the same order. -/
noncomputable def export_deadlines_to_csv (today : ℤ) (days_ahead : ℤ) (p : Planner) :
    Except Unit CsvFile :=
  match get_upcoming_deadlines today days_ahead p with
  | .error e => .error e
  | .ok ds =>
    .ok { header := ["due_date", "title", "type", "course_code", "hours_needed", "priority"]
          rows := ds.map csvRowOfDeadline }

/-! ## Variant setters replayed by deserialization -/

def add_notes (n : String) (i : Item) : Item :=
  { i with kind := match i.kind with
      | .assignment est _ ins => .assignment est (strTrim n) ins
      | k => k }

def set_instructions (s : String) (i : Item) : Item :=
  { i with kind := match i.kind with
      | .assignment est n _ => .assignment est n (strTrim s)
      | k => k }

/-- `add_milestone(title, due_date)`: validates the date, then appends. -/
def add_milestone (t dd : String) (i : Item) : Except Unit Item :=
  match parseDate dd with
  | none => .error ()
  | some _ =>
    .ok { i with kind := match i.kind with
            | .project m ts ms r => .project m ts (ms ++ [(strTrim t, dd)]) r
            | k => k }

def set_repository (r : String) (i : Item) : Item :=
  { i with kind := match i.kind with
      | .project m ts ms _ => .project m ts ms (strTrim r)
      | k => k }

def set_study_guide (g : String) (i : Item) : Item :=
  { i with kind := match i.kind with
      | .exam et c _ loc => .exam et c (strTrim g) loc
      | k => k }

def set_location (l : String) (i : Item) : Item :=
  { i with kind := match i.kind with
      | .exam et c g _ => .exam et c g (strTrim l)
      | k => k }

/-! ## Constructors (the `__init__` validation chains) -/

/-- `AcademicItem.__init__` with `status='not_started'`: non-empty stripped
title and course code, weight in [0, 100], parseable due date; stores the
stripped title and the upper-cased course code. -/
def mkBase (title due_date course_code : String) (weight : ℚ) (k : ItemKind) :
    Except Unit Item :=
  if strTrim title = "" then .error ()
  else if strTrim course_code = "" then .error ()
  else if ¬(0 ≤ weight ∧ weight ≤ 100) then .error ()
  else
    match parseDate due_date with
    | none => .error ()
    | some _ =>
      .ok { title := strTrim title
            due_date := due_date
            course_code := strUpper course_code
            weight := weight
            status := .not_started
            score := none
            submission_date := none
            kind := k }

/-- `Assignment.__init__` (base validation, then `estimated_hours ≥ 0`). -/
def mkAssignment (title due_date course_code : String) (weight estimated_hours : ℚ) :
    Except Unit Item :=
  match mkBase title due_date course_code weight (.assignment estimated_hours "" "") with
  | .error e => .error e
  | .ok i => if estimated_hours < 0 then .error () else .ok i

/-- `Project.__init__` (base validation, then `num_milestones ≥ 1`,
`team_size ≥ 1`; both arrive as Python ints). -/
def mkProject (title due_date course_code : String) (weight : ℚ)
    (num_milestones team_size : ℤ) : Except Unit Item :=
  match mkBase title due_date course_code weight
      (.project num_milestones.toNat team_size.toNat [] "") with
  | .error e => .error e
  | .ok i =>
    if num_milestones < 1 then .error ()
    else if team_size < 1 then .error ()
    else .ok i

/-- `Exam.__init__` (base validation, `exam_type.lower()` in the fixed enum,
`num_chapters ≥ 1`; `_location` defaults to `"TBA"`).  The enum check is
hoisted before the base checks so the variant value is available — every
failure is the same `ValueError`, so the observable result is unchanged. -/
def mkExam (title due_date course_code : String) (weight : ℚ)
    (exam_type : String) (num_chapters : ℤ) : Except Unit Item :=
  match parseExamType exam_type with
  | none => .error ()
  | some et =>
    match mkBase title due_date course_code weight (.exam et num_chapters.toNat "" "TBA") with
    | .error e => .error e
    | .ok i => if num_chapters < 1 then .error () else .ok i

/-! ## JSON wire format (`_item_to_dict` / `_item_from_dict`) -/

/-- The serialized item dict.  Every key read by `_item_from_dict` with
`data[...]` or `data.get(...)` is a field; `none` models a missing key. -/
structure RawItem where
  type_ : Option String
  title : Option String
  due_date : Option String
  course_code : Option String
  weight : Option ℚ
  status : Option Status
  score : Option ℚ
  estimated_hours : Option ℚ
  notes : Option String
  instructions : Option String
  num_milestones : Option ℤ
  team_size : Option ℤ
  milestones : List (Option String × Option String)
  repository_url : Option String
  exam_type : Option String
  num_chapters : Option ℤ
  study_guide : Option String
  location : Option String
deriving DecidableEq, Repr

def emptyRawItem : RawItem :=
  { type_ := none, title := none, due_date := none, course_code := none
    weight := none, status := none, score := none
    estimated_hours := none, notes := none, instructions := none
    num_milestones := none, team_size := none, milestones := []
    repository_url := none, exam_type := none, num_chapters := none
    study_guide := none, location := none }

/-- `_item_to_dict`: the common fields plus the variant extras. -/
def item_to_dict (i : Item) : RawItem :=
  let base : RawItem :=
    { emptyRawItem with
      type_ := some (get_item_type i)
      title := some i.title
      due_date := some i.due_date
      course_code := some i.course_code
      weight := some i.weight
      status := some i.status
      score := i.score }
  match i.kind with
  | .assignment est n ins =>
    { base with
      estimated_hours := some est
      notes := some n
      instructions := some ins }
  | .project m t ms r =>
    { base with
      num_milestones := some (m : ℤ)
      team_size := some (t : ℤ)
      milestones := ms.map (fun td => (some td.1, some td.2))
      repository_url := some r }
  | .exam et c g loc =>
    { base with
      exam_type := some (examTypeStr et)
      num_chapters := some (c : ℤ)
      study_guide := some g
      location := some loc }

/-- Replay of the milestone loop in `_item_from_dict`: each entry with
truthy title and due date goes through `add_milestone`, whose date
validation error aborts the whole item. -/
def addMilestones (ms : List (Option String × Option String)) (i : Item) :
    Except Unit Item :=
  match ms with
  | [] => .ok i
  | (t?, d?) :: rest =>
    match t?, d? with
    | some t, some dd =>
      if t ≠ "" ∧ dd ≠ "" then
        match add_milestone t dd i with
        | .error e => .error e
        | .ok i2 => addMilestones rest i2
      else addMilestones rest i
    | _, _ => addMilestones rest i

/-- The status/score restoration at the end of `_item_from_dict`: a
completed status with a score replays `mark_completed(float(score))`,
falling back to a bare status write if that raises; any other valid status
is written directly. -/
def restoreStatus (todayStr : String) (d : RawItem) (i : Item) : Item :=
  match d.status, d.score with
  | some .completed, some sc =>
    match mark_completed todayStr sc none i with
    | (i2, none) => i2
    | (_, some _) => { i with status := .completed }
  | some st, _ => { i with status := st }
  | none, _ => i

/-- Python truthiness of an optional string (`None` and `""` are falsy). -/
def truthy : Option String → Bool
  | none => false
  | some s => s ≠ ""

/-- `_item_from_dict`: dispatch on the upper-cased type tag by substring,
reconstruct through the variant constructor, replay the optional setters,
then restore status/score.  Any missing required key, unknown tag, or
validation failure raises (and the bulk loader skips the record). -/
def item_from_dict (todayStr : String) (d : RawItem) : Except Unit Item :=
  match d.title, d.due_date, d.course_code, d.weight with
  | some title, some due_date, some course_code, some weight =>
    let item_type := strUpper (d.type_.getD "")
    let base : Except Unit Item :=
      if strContains item_type "ASSIGNMENT" then
        match mkAssignment title due_date course_code weight (d.estimated_hours.getD 0) with
        | .error e => .error e
        | .ok i =>
          let i := if truthy d.notes then add_notes (d.notes.getD "") i else i
          .ok (if truthy d.instructions then set_instructions (d.instructions.getD "") i else i)
      else if strContains item_type "PROJECT" then
        match mkProject title due_date course_code weight
            (d.num_milestones.getD 0) (d.team_size.getD 1) with
        | .error e => .error e
        | .ok i =>
          match addMilestones d.milestones i with
          | .error e => .error e
          | .ok i2 =>
            .ok (if truthy d.repository_url then set_repository (d.repository_url.getD "") i2 else i2)
      else if strContains item_type "EXAM" then
        match mkExam title due_date course_code weight
            (d.exam_type.getD "exam") (d.num_chapters.getD 0) with
        | .error e => .error e
        | .ok i =>
          let i := if truthy d.study_guide then set_study_guide (d.study_guide.getD "") i else i
          .ok (if truthy d.location then set_location (d.location.getD "") i else i)
      else .error ()
    match base with
    | .error e => .error e
    | .ok i => .ok (restoreStatus todayStr d i)
  | _, _, _, _ => .error ()

/-! ## Planner persistence (`save_to_json` / `load_from_json`) -/

/-- The JSON value bound to the `"items"` key.  A JSON array is a list of
records; a non-iterable value (number, boolean, null) makes the
`for item_data in items_data` loop raise an uncaught `TypeError`.  A
non-list *iterable* (a string or an object) iterates over scalar
elements, every one of which fails `_item_from_dict` and is skipped, so
those payloads behave exactly like a `list` of records that all fail to
deserialize and are subsumed by the `list` constructor. -/
inductive ItemsValue
  | non_iterable
  | list (ds : List RawItem)
deriving DecidableEq, Repr

/-- The planner JSON payload when the document's top level is an object
(the write-only `generated_at` timestamp is not modelled;
`load_from_json` never reads it). -/
structure RawPlanner where
  student_name : Option String
  items : Option ItemsValue
deriving DecidableEq, Repr

/-- A successfully parsed JSON document.  If its top level is not an
object (a number, string, array, ...), `raw.get("student_name", ...)`
raises an uncaught `AttributeError`; otherwise the object's keys are read
as in `RawPlanner`. -/
inductive JsonPayload
  | non_object
  | object (raw : RawPlanner)
deriving DecidableEq, Repr

/-- `save_to_json` serializes the planner state (always a JSON object
whose `"items"` key holds a list). -/
def save_to_json (p : Planner) : RawPlanner :=
  { student_name := some p.student_name
    items := some (.list (p.items.map item_to_dict)) }

/-- Outcome of opening and reading the file in `load_from_json`:
the file may be missing, reading may fail at the OS level, or the bytes
are obtained and JSON parsing either fails (`content none`) or produces
the document. -/
inductive ReadResult
  | missing
  | os_error
  | content (parsed : Option JsonPayload)

/-- The fatal outcomes of `load_from_json`: the three documented kinds —
`FileNotFoundError`, `ValueError` (invalid format / missing key), and
`OSError` (wrapped read failure) — plus the two uncaught exception kinds
the code lets escape on well-formed JSON of the wrong shape:
`AttributeError` when the top level is not an object (the `raw.get` call)
and `TypeError` when the `"items"` value is not iterable (the `for`
loop). -/
inductive LoadError
  | not_found
  | invalid_format
  | io_error
  | attribute_error
  | type_error
deriving DecidableEq, Repr

/-- `load_from_json`: missing file → not-found; JSON parse failure →
invalid-format; OS read failure → I/O error; a non-object top level →
uncaught `AttributeError`; a payload without the `"items"` key →
invalid-format (`KeyError` re-raised as `ValueError`); a non-iterable
`"items"` value → uncaught `TypeError`; otherwise each record is
deserialized, records that raise are skipped, and the planner's name and
items are replaced. -/
def load_from_json (todayStr : String) (r : ReadResult) (p : Planner) :
    Except LoadError Planner :=
  match r with
  | .missing => .error .not_found
  | .os_error => .error .io_error
  | .content none => .error .invalid_format
  | .content (some .non_object) => .error .attribute_error
  | .content (some (.object raw)) =>
    match raw.items with
    | none => .error .invalid_format
    | some .non_iterable => .error .type_error
    | some (.list items_data) =>
      .ok { student_name := raw.student_name.getD p.student_name
            items := items_data.filterMap (fun d => (item_from_dict todayStr d).toOption) }

/-! ## `remove_item` -/

def removeMatch (title course_code : String) (i : Item) : Bool :=
  i.title == title && i.course_code == strUpper course_code

def removeFirst (title course_code : String) : List Item → Bool × List Item
  | [] => (false, [])
  | i :: rest =>
    if removeMatch title course_code i then (true, rest)
    else
      let r := removeFirst title course_code rest
      (r.1, i :: r.2)

/-- Modelled from the spec: `AcademicPlanner.remove_item(title, course_code)`
is listed in the spec (§4.2) but absent from the source; per the spec it
removes the first item matching the title and the normalized (upper-cased)
course code and returns whether a removal occurred. -/
def remove_item (title course_code : String) (p : Planner) : Bool × Planner :=
  let r := removeFirst title course_code p.items
  (r.1, { p with items := r.2 })

/-! ## Concrete fixtures used by counterexamples and witnesses -/

/-- A completed assignment due 2025-01-02 with 2.0 estimated hours. -/
def hw1Completed : Item :=
  { title := "HW1", due_date := "2025-01-02", course_code := "INST326",
    weight := 10, status := .completed, score := some 95,
    submission_date := none, kind := .assignment 2 "" "" }

/-- Day number of 2025-01-01, the fixed "today" of the concrete scenarios. -/
def jan1 : ℤ := dayNumber 2025 1 1

/-! ## Order facts for the due-date sort key -/

theorem lexLe_total (a b : List Char) : lexLe a b ∨ lexLe b a := by
  induction a generalizing b with
  | nil => left; rfl
  | cons x xs ih =>
    cases b with
    | nil => right; rfl
    | cons y ys =>
      rcases lt_trichotomy x y with h | h | h
      · left; simp [lexLe, h]
      · subst h
        rcases ih ys with h2 | h2
        · left; simp [lexLe, h2]
        · right; simp [lexLe, h2]
      · right; simp [lexLe, h]

theorem lexLe_trans (a b c : List Char) (h1 : lexLe a b) (h2 : lexLe b c) : lexLe a c := by
  induction a generalizing b c with
  | nil => rfl
  | cons x xs ih =>
    cases b with
    | nil => simp [lexLe] at h1
    | cons y ys =>
      cases c with
      | nil => simp [lexLe] at h2
      | cons z zs =>
        simp only [lexLe] at h1 h2 ⊢
        split at h1
        · rename_i hxy
          split at h2
          · rename_i hyz
            simp [lt_trans hxy hyz]
          · split at h2
            · rename_i hyz
              subst hyz
              simp [hxy]
            · exact absurd h2 (by simp)
        · split at h1
          · rename_i hxy
            subst hxy
            split at h2
            · rename_i hyz
              simp [hyz]
            · split at h2
              · rename_i hyz
                subst hyz
                simp only [if_pos rfl] at *
                split
                · rfl
                · split
                  · exact ih ys zs h1 h2
                  · simp at *
              · exact absurd h2 (by simp)
          · exact absurd h1 (by simp)

instance : IsTotal Deadline Deadline.le :=
  ⟨fun a b => by
    rcases lexLe_total a.due_date.data b.due_date.data with h | h
    · exact Or.inl h
    · exact Or.inr h⟩

instance : IsTrans Deadline Deadline.le :=
  ⟨fun _ _ _ h1 h2 => lexLe_trans _ _ _ h1 h2⟩

/-- Shared helper: a successful `get_upcoming_deadlines` result is sorted by
the due-date string. -/
theorem upcoming_deadlines_sorted (today days_ahead : ℤ) (p : Planner)
    (l : List Deadline) (h : get_upcoming_deadlines today days_ahead p = .ok l) :
    l.Pairwise Deadline.le := by
  unfold get_upcoming_deadlines at h
  split at h
  · exact absurd h (by simp)
  · injection h with h
    subst h
    exact List.sorted_insertionSort Deadline.le _

/-- Shared helper: membership in a successful `get_upcoming_deadlines`
result. -/
theorem mem_upcoming_deadlines (today days_ahead : ℤ) (p : Planner)
    (l : List Deadline) (h : get_upcoming_deadlines today days_ahead p = .ok l)
    (e : Deadline) (he : e ∈ l) :
    ∃ i ∈ p.items, ∃ due : ℤ,
      e = mkDeadline today i ∧ parseDate i.due_date = some due ∧
      today ≤ due ∧ due ≤ today + days_ahead := by
  unfold get_upcoming_deadlines at h
  split at h
  · exact absurd h (by simp)
  · injection h with h
    subst h
    rw [(List.perm_insertionSort Deadline.le _).mem_iff] at he
    rw [List.mem_filterMap] at he
    obtain ⟨i, hi, hf⟩ := he
    refine ⟨i, hi, ?_⟩
    split at hf
    · exact absurd hf (by simp)
    · rename_i due hp
      split at hf
      · rename_i hrange
        injection hf with hf
        exact ⟨due, hf.symm, hp, hrange.1, hrange.2⟩
      · exact absurd hf (by simp)

/-- C6: for a non-completed Assignment with a parseable due date,
`get_priority` is "critical" iff `days < 0` or (`days ≤ 2` and
`weight ≥ 20`); otherwise "high" iff `days ≤ 5` or `weight ≥ 30`; otherwise
"medium" iff `days ≤ 10` or `weight ≥ 15`; otherwise "low".  In
particular, an Assignment due in 3 days with weight 25 gets "high". -/
theorem assignment_priority_ladder :
    (∀ (today : ℤ) (i : Item) (est : ℚ) (n ins : String) (due : ℤ),
      i.kind = .assignment est n ins →
      i.status ≠ .completed →
      parseDate i.due_date = some due →
      get_priority today i = .ok
        (if due - today < 0 ∨ (due - today ≤ 2 ∧ 20 ≤ i.weight) then "critical"
         else if due - today ≤ 5 ∨ 30 ≤ i.weight then "high"
         else if due - today ≤ 10 ∨ 15 ≤ i.weight then "medium"
         else "low")) ∧
    get_priority (dayNumber 2025 1 1)
      { title := "HW1", due_date := "2025-01-04", course_code := "INST326",
        weight := 25, status := .not_started, score := none,
        submission_date := none, kind := .assignment 3 "" "" } = .ok "high" := by
  constructor
  · intro today i est n ins due hk hst hp
    unfold get_priority
    rw [if_neg hst, hp, hk]
    unfold kindPriority
    by_cases h1 : due - today < 0
    · simp [h1]
    · by_cases h2 : due - today ≤ 2 ∧ 20 ≤ i.weight
      · simp [h1, h2]
      · simp [h1, h2]
  · rfl

/-- Witness for C6 at a concrete non-completed assignment. -/
theorem assignment_priority_ladder_witness :
    get_priority 0
      { title := "Essay", due_date := "1970-01-12", course_code := "X1",
        weight := 40, status := .in_progress, score := none,
        submission_date := none, kind := .assignment 1 "" "" } = .ok
      (if (11 : ℤ) - 0 < 0 ∨ ((11 : ℤ) - 0 ≤ 2 ∧ 20 ≤ (40 : ℚ)) then "critical"
       else if (11 : ℤ) - 0 ≤ 5 ∨ 30 ≤ (40 : ℚ) then "high"
       else if (11 : ℤ) - 0 ≤ 10 ∨ 15 ≤ (40 : ℚ) then "medium"
       else "low") :=
  assignment_priority_ladder.1 0 _ 1 "" "" 11 rfl (by decide) (by decide)

/-- C7: `mark_completed(score)` with a score in [0, 100] succeeds and the
item's `get_priority()` is then "low" for every variant; a score outside
[0, 100] raises. -/
theorem mark_completed_then_low :
    (∀ (todayStr : String) (today : ℤ) (score : ℚ) (i : Item),
      0 ≤ score → score ≤ 100 →
      ∃ i2, mark_completed todayStr score none i = (i2, none) ∧
        get_priority today i2 = .ok "low") ∧
    (∀ (todayStr : String) (score : ℚ) (sub : Option String) (i : Item),
      score < 0 ∨ 100 < score →
      (mark_completed todayStr score sub i).2 = some ()) := by
  constructor
  · intro todayStr today score i h0 h1
    refine ⟨{ i with
              status := .completed
              score := some score
              submission_date := some todayStr }, ?_, rfl⟩
    unfold mark_completed
    rw [if_neg (not_not_intro ⟨h0, h1⟩)]
  · intro todayStr score sub i h
    have hc : ¬(0 ≤ score ∧ score ≤ 100) := by
      intro hc
      rcases h with h | h
      · exact absurd hc.1 (not_le.2 h)
      · exact absurd hc.2 (not_le.2 h)
    unfold mark_completed
    rw [if_pos hc]

/-- Witness for C7: completing a concrete exam with score 95 makes its
priority "low", and score 150 raises. -/
theorem mark_completed_then_low_witness :
    (∃ i2, mark_completed "2025-01-01" 95 none
        { title := "Midterm", due_date := "2025-01-02", course_code := "INST326",
          weight := 25, status := .not_started, score := none,
          submission_date := none, kind := .exam .midterm 5 "" "TBA" } = (i2, none) ∧
      get_priority (dayNumber 2025 1 1) i2 = .ok "low") ∧
    (mark_completed "2025-01-01" 150 none
        { title := "Midterm", due_date := "2025-01-02", course_code := "INST326",
          weight := 25, status := .not_started, score := none,
          submission_date := none, kind := .exam .midterm 5 "" "TBA" }).2 = some () :=
  ⟨mark_completed_then_low.1 "2025-01-01" (dayNumber 2025 1 1) 95 _ (by decide) (by decide),
   mark_completed_then_low.2 "2025-01-01" 150 none _ (Or.inr (by decide))⟩

/-- C10: `mark_completed` validates the score before mutating — an
out-of-range score raises with the item fully unchanged; but a valid score
with a malformed submission date raises only after status and score have
been set, leaving the item mutated (its submission date unchanged). -/
theorem mark_completed_mutation_order :
    (∀ (todayStr : String) (score : ℚ) (sub : Option String) (i : Item),
      ¬(0 ≤ score ∧ score ≤ 100) →
      mark_completed todayStr score sub i = (i, some ())) ∧
    (∀ (todayStr : String) (score : ℚ) (s : String) (i : Item),
      0 ≤ score → score ≤ 100 → s ≠ "" → parseDate s = none →
      mark_completed todayStr score (some s) i =
        ({ i with status := .completed, score := some score }, some ())) := by
  constructor
  · intro todayStr score sub i hc
    unfold mark_completed
    rw [if_pos hc]
  · intro todayStr score s i h0 h1 hs hp
    unfold mark_completed
    rw [if_neg (not_not_intro ⟨h0, h1⟩)]
    simp [hp, hs]

/-- Witness for C10: score 101 leaves a concrete item untouched; score 88
with submission date "not-a-date" completes the item yet raises. -/
theorem mark_completed_mutation_order_witness :
    (mark_completed "2025-01-01" 101 none
        { title := "HW", due_date := "2025-01-02", course_code := "C1",
          weight := 10, status := .in_progress, score := none,
          submission_date := none, kind := .assignment 2 "" "" } =
      ({ title := "HW", due_date := "2025-01-02", course_code := "C1",
         weight := 10, status := .in_progress, score := none,
         submission_date := none, kind := .assignment 2 "" "" }, some ())) ∧
    (mark_completed "2025-01-01" 88 (some "not-a-date")
        { title := "HW", due_date := "2025-01-02", course_code := "C1",
          weight := 10, status := .in_progress, score := none,
          submission_date := none, kind := .assignment 2 "" "" } =
      ({ title := "HW", due_date := "2025-01-02", course_code := "C1",
         weight := 10, status := .completed, score := some 88,
         submission_date := none, kind := .assignment 2 "" "" }, some ())) :=
  ⟨mark_completed_mutation_order.1 "2025-01-01" 101 none _ (by decide),
   mark_completed_mutation_order.2 "2025-01-01" 88 "not-a-date" _
     (by decide) (by decide) (by decide) (by decide)⟩

/-! ## `remove_item` (modelled from the spec) -/

theorem removeFirst_of_no_match (title cc : String) (l : List Item)
    (h : ∀ i ∈ l, removeMatch title cc i = false) :
    removeFirst title cc l = (false, l) := by
  induction l with
  | nil => rfl
  | cons i rest ih =>
    unfold removeFirst
    rw [h i (by simp)]
    simp only [Bool.false_eq_true, if_false]
    rw [ih (fun j hj => h j (by simp [hj]))]

theorem removeFirst_of_first_match (title cc : String) (l1 : List Item) (m : Item)
    (l2 : List Item) (hm : removeMatch title cc m = true)
    (h1 : ∀ j ∈ l1, removeMatch title cc j = false) :
    removeFirst title cc (l1 ++ m :: l2) = (true, l1 ++ l2) := by
  induction l1 with
  | nil =>
    simp only [List.nil_append]
    simp only [removeFirst]
    rw [hm]
    simp
  | cons j rest ih =>
    simp only [List.cons_append]
    simp only [removeFirst]
    rw [h1 j (by simp)]
    simp only [Bool.false_eq_true, if_false]
    rw [ih (fun j hj => h1 j (by simp [hj]))]

/-- C9: `remove_item(title, course_code)` (absent from the source, modelled
from the spec) removes the first item matching the title and upper-cased
course code, returns whether a removal occurred, and leaves every other
item in its original order. -/
theorem remove_item_spec :
    (∀ (title cc : String) (p : Planner),
      (∀ i ∈ p.items, removeMatch title cc i = false) →
      remove_item title cc p = (false, p)) ∧
    (∀ (title cc : String) (p : Planner) (l1 : List Item) (m : Item) (l2 : List Item),
      p.items = l1 ++ m :: l2 →
      removeMatch title cc m = true →
      (∀ j ∈ l1, removeMatch title cc j = false) →
      remove_item title cc p = (true, { p with items := l1 ++ l2 })) := by
  constructor
  · intro title cc p h
    unfold remove_item
    rw [removeFirst_of_no_match title cc p.items h]
  · intro title cc p l1 m l2 hp hm h1
    unfold remove_item
    rw [hp, removeFirst_of_first_match title cc l1 m l2 hm h1]

/-- Witness for C9 on a concrete two-item planner: removing ("P1",
"inst326") drops exactly the second item. -/
theorem remove_item_spec_witness :
    remove_item "P1" "inst326"
      { student_name := "Rhea"
        items :=
          [{ title := "HW", due_date := "2025-01-02", course_code := "INST326",
             weight := 10, status := .not_started, score := none,
             submission_date := none, kind := .assignment 2 "" "" },
           { title := "P1", due_date := "2025-01-03", course_code := "INST326",
             weight := 30, status := .not_started, score := none,
             submission_date := none, kind := .project 2 1 [] "" }] } =
      (true,
       { student_name := "Rhea"
         items :=
           [{ title := "HW", due_date := "2025-01-02", course_code := "INST326",
              weight := 10, status := .not_started, score := none,
              submission_date := none, kind := .assignment 2 "" "" }] }) :=
  remove_item_spec.2 "P1" "inst326" _
    [{ title := "HW", due_date := "2025-01-02", course_code := "INST326",
       weight := 10, status := .not_started, score := none,
       submission_date := none, kind := .assignment 2 "" "" }]
    { title := "P1", due_date := "2025-01-03", course_code := "INST326",
      weight := 30, status := .not_started, score := none,
      submission_date := none, kind := .project 2 1 [] "" }
    [] rfl (by decide) (by decide)

/-! ## Load error taxonomy -/

/-- C8 (amended): `load_from_json` surfaces the three documented fatal
error kinds — a distinct not-found error for a missing file, an
invalid-format `ValueError` for malformed JSON (or a payload missing the
`"items"` key, the same kind), and an I/O error wrapping OS-level read
failures — and a record that fails to deserialize is skipped without
failing the load; but two further uncaught fatal kinds escape on
well-formed JSON of the wrong shape: an `AttributeError` when the top
level is not an object, and a `TypeError` when the `"items"` value is
not iterable. -/
theorem load_error_taxonomy :
    (∀ (todayStr : String) (p : Planner),
      load_from_json todayStr .missing p = .error .not_found) ∧
    (∀ (todayStr : String) (p : Planner),
      load_from_json todayStr .os_error p = .error .io_error) ∧
    (∀ (todayStr : String) (p : Planner),
      load_from_json todayStr (.content none) p = .error .invalid_format) ∧
    (∀ (todayStr : String) (p : Planner) (raw : RawPlanner),
      raw.items = none →
      load_from_json todayStr (.content (some (.object raw))) p =
        .error .invalid_format) ∧
    (∀ (todayStr : String) (p : Planner) (raw : RawPlanner) (items_data : List RawItem),
      raw.items = some (.list items_data) →
      load_from_json todayStr (.content (some (.object raw))) p =
        .ok { student_name := raw.student_name.getD p.student_name,
              items := items_data.filterMap
                (fun d => (item_from_dict todayStr d).toOption) }) ∧
    (∀ (todayStr : String) (p : Planner),
      load_from_json todayStr (.content (some .non_object)) p =
        .error .attribute_error) ∧
    (∀ (todayStr : String) (p : Planner) (raw : RawPlanner),
      raw.items = some .non_iterable →
      load_from_json todayStr (.content (some (.object raw))) p =
        .error .type_error) := by
  refine ⟨fun _ _ => rfl, fun _ _ => rfl, fun _ _ => rfl, ?_, ?_, fun _ _ => rfl, ?_⟩
  · intro todayStr p raw h
    simp only [load_from_json]
    rw [h]
  · intro todayStr p raw items_data h
    simp only [load_from_json]
    rw [h]
  · intro todayStr p raw h
    simp only [load_from_json]
    rw [h]

/-- Witness for C8 at concrete inputs: a payload whose single record lacks
every required key loads successfully as an empty planner (the bad record
is skipped); a payload without an `"items"` key is an invalid-format
error; and an object payload whose `"items"` value is not iterable is an
uncaught `TypeError`. -/
theorem load_error_taxonomy_witness :
    load_from_json "2025-01-01"
      (.content (some (.object
        { student_name := some "Rhea", items := some (.list [emptyRawItem]) })))
      { student_name := "Old", items := [] } =
      .ok { student_name := "Rhea",
            items := [emptyRawItem].filterMap
              (fun d => (item_from_dict "2025-01-01" d).toOption) } ∧
    load_from_json "2025-01-01"
      (.content (some (.object { student_name := some "Rhea", items := none })))
      { student_name := "Old", items := [] } = .error .invalid_format ∧
    load_from_json "2025-01-01"
      (.content (some (.object
        { student_name := some "Rhea", items := some .non_iterable })))
      { student_name := "Old", items := [] } = .error .type_error :=
  ⟨load_error_taxonomy.2.2.2.2.1 "2025-01-01" _ _ [emptyRawItem] rfl,
   load_error_taxonomy.2.2.2.1 "2025-01-01" _ _ rfl,
   load_error_taxonomy.2.2.2.2.2.2 "2025-01-01" _ _ rfl⟩

/-- Counterexample to C8 as stated: well-formed JSON whose top level is
not an object makes `load_from_json` raise an uncaught `AttributeError`
at the `raw.get` call — a fatal error kind beyond the claimed three —
and an object payload whose `"items"` value is not iterable raises an
uncaught `TypeError` at the `for` loop, another. -/
theorem load_fourth_error_kind :
    load_from_json "2025-01-01" (.content (some .non_object))
      { student_name := "Old", items := [] } = .error .attribute_error ∧
    load_from_json "2025-01-01"
      (.content (some (.object { student_name := none, items := some .non_iterable })))
      { student_name := "Old", items := [] } = .error .type_error ∧
    (LoadError.attribute_error ≠ .not_found ∧
      LoadError.attribute_error ≠ .invalid_format ∧
      LoadError.attribute_error ≠ .io_error) ∧
    (LoadError.type_error ≠ .not_found ∧
      LoadError.type_error ≠ .invalid_format ∧
      LoadError.type_error ≠ .io_error) :=
  ⟨rfl, rfl, ⟨by decide, by decide, by decide⟩, ⟨by decide, by decide, by decide⟩⟩

/-! ## Upcoming deadlines (C2, C4) -/

/-- C2 (amended): for positive `days_ahead`, every entry of
`get_upcoming_deadlines` is built (by `mkDeadline`: the dict
`{title, due_date, type, hours_needed, priority}` — no `course_code` key)
from some item of the planner whose due date parses into
`[today, today + days_ahead]`, and the result is sorted ascending by the
due-date string.  Completed items are not excluded (see the
counterexample). -/
theorem upcoming_deadlines_spec :
    ∀ (today days_ahead : ℤ) (p : Planner) (l : List Deadline),
      0 < days_ahead →
      get_upcoming_deadlines today days_ahead p = .ok l →
      (∀ e ∈ l, ∃ i ∈ p.items, ∃ due : ℤ,
        e = mkDeadline today i ∧ parseDate e.due_date = some due ∧
        today ≤ due ∧ due ≤ today + days_ahead) ∧
      l.Pairwise Deadline.le := by
  intro today days_ahead p l _ h
  constructor
  · intro e he
    obtain ⟨i, hi, due, hei, hdue, hlo, hhi⟩ :=
      mem_upcoming_deadlines today days_ahead p l h e he
    exact ⟨i, hi, due, hei, by rw [hei]; exact hdue, hlo, hhi⟩
  · exact upcoming_deadlines_sorted today days_ahead p l h

/-- Witness for C2 on a concrete planner. -/
theorem upcoming_deadlines_spec_witness :
    (∀ e ∈ ([] : List Deadline), ∃ i ∈ (Planner.mk "Rhea" []).items, ∃ due : ℤ,
      e = mkDeadline (dayNumber 2025 1 1) i ∧ parseDate e.due_date = some due ∧
      dayNumber 2025 1 1 ≤ due ∧ due ≤ dayNumber 2025 1 1 + 7) ∧
    List.Pairwise Deadline.le ([] : List Deadline) :=
  upcoming_deadlines_spec (dayNumber 2025 1 1) 7 (Planner.mk "Rhea" []) []
    (by decide) rfl

/-- Counterexample to C2 as stated: a planner whose only item is completed
(due tomorrow) still has that item returned by `get_upcoming_deadlines`,
so completed items are not filtered out. -/
theorem upcoming_deadlines_returns_completed :
    get_upcoming_deadlines jan1 7 { student_name := "Rhea", items := [hw1Completed] } =
      .ok [mkDeadline jan1 hw1Completed] ∧
    hw1Completed.status = .completed :=
  ⟨rfl, rfl⟩

/-- C4: the deadlines CSV export writes exactly the header
`due_date,title,type,course_code,hours_needed,priority` followed by one
row per upcoming deadline (as computed by `get_upcoming_deadlines`), in
the same ascending due-date order. -/
theorem export_deadlines_csv_spec :
    ∀ (today days_ahead : ℤ) (p : Planner) (ds : List Deadline),
      get_upcoming_deadlines today days_ahead p = .ok ds →
      export_deadlines_to_csv today days_ahead p =
        .ok { header := ["due_date", "title", "type", "course_code",
                         "hours_needed", "priority"],
              rows := ds.map csvRowOfDeadline } ∧
      (ds.map csvRowOfDeadline).Pairwise
        (fun a b => lexLe a.due_date.data b.due_date.data = true) := by
  intro today days_ahead p ds h
  constructor
  · unfold export_deadlines_to_csv
    rw [h]
  · have hs := upcoming_deadlines_sorted today days_ahead p ds h
    rw [List.pairwise_map]
    exact hs.imp (fun hab => hab)

/-- Witness for C4 on a concrete planner. -/
theorem export_deadlines_csv_spec_witness :
    export_deadlines_to_csv (dayNumber 2025 1 1) 7 (Planner.mk "Rhea" []) =
      .ok { header := ["due_date", "title", "type", "course_code",
                       "hours_needed", "priority"],
            rows := ([] : List Deadline).map csvRowOfDeadline } ∧
    (([] : List Deadline).map csvRowOfDeadline).Pairwise
      (fun a b => lexLe a.due_date.data b.due_date.data = true) :=
  export_deadlines_csv_spec (dayNumber 2025 1 1) 7 (Planner.mk "Rhea" []) [] rfl

/-! ## Time-commitment formulas (C5) -/

theorem round2_eq_self_of_mul_int (x : ℝ) (n : ℤ) (h : x * 100 = n) :
    round2 x = x := by
  have hx : x = (n : ℝ) / 100 := by
    rw [← h]; ring
  rw [round2, h, round_intCast, hx]

theorem four_rpow_pow_ten : ((4 : ℝ) ^ (0.7 : ℝ)) ^ (10 : ℕ) = 16384 := by
  rw [← Real.rpow_natCast ((4 : ℝ) ^ (0.7 : ℝ)) 10,
    ← Real.rpow_mul (by norm_num : (0 : ℝ) ≤ 4)]
  rw [show (0.7 : ℝ) * (10 : ℕ) = ((7 : ℕ) : ℝ) by norm_num, Real.rpow_natCast]
  norm_num

theorem four_rpow_gt : (2.639 : ℝ) < (4 : ℝ) ^ (0.7 : ℝ) := by
  have h0 : (0 : ℝ) ≤ (4 : ℝ) ^ (0.7 : ℝ) := Real.rpow_nonneg (by norm_num) _
  apply lt_of_pow_lt_pow_left₀ 10 h0
  rw [four_rpow_pow_ten]
  norm_num

theorem four_rpow_lt : (4 : ℝ) ^ (0.7 : ℝ) < 2.64 := by
  apply lt_of_pow_lt_pow_left₀ 10 (by norm_num)
  rw [four_rpow_pow_ten]
  norm_num

/-- C5: a Project's `calculate_time_commitment()` equals
`15 * num_milestones / team_size^0.7` rounded to two decimals (the code's
`team_factor = 1.0` special case for a one-person team agrees with
`1^0.7 = 1`); a Project with 3 milestones and team size 4 yields 17.05.
An Exam's commitment is `rate(exam_type) * num_chapters` with rate 2.0
for a quiz, 4.0 for a final and 3.0 otherwise (the code's rounding is the
identity on these whole-number values); a final over 6 chapters yields
24.0. -/
theorem time_commitment_formulas :
    (∀ (title dd cc : String) (w : ℚ) (st : Status) (sc : Option ℚ)
        (sub : Option String) (m t : ℕ) (ms : List (String × String)) (r : String),
      calculate_time_commitment
        { title := title, due_date := dd, course_code := cc, weight := w,
          status := st, score := sc, submission_date := sub,
          kind := .project m t ms r } =
        round2 ((15 * m : ℝ) / (t : ℝ) ^ (0.7 : ℝ))) ∧
    (∀ (title dd cc : String) (w : ℚ) (st : Status) (sc : Option ℚ)
        (sub : Option String) (et : ExamType) (c : ℕ) (g loc : String),
      calculate_time_commitment
        { title := title, due_date := dd, course_code := cc, weight := w,
          status := st, score := sc, submission_date := sub,
          kind := .exam et c g loc } =
        (if et = .quiz then (2 : ℝ) else if et = .final then 4 else 3) * (c : ℕ)) ∧
    calculate_time_commitment
      { title := "Final Project", due_date := "2025-12-10", course_code := "INST326",
        weight := 40, status := .not_started, score := none, submission_date := none,
        kind := .project 3 4 [] "" } = 17.05 ∧
    calculate_time_commitment
      { title := "Final", due_date := "2025-12-15", course_code := "INST326",
        weight := 30, status := .not_started, score := none, submission_date := none,
        kind := .exam .final 6 "" "TBA" } = 24 := by
  have hproj : ∀ (m t : ℕ) (ms : List (String × String)) (r : String),
      kindTimeCommitment (.project m t ms r) =
        round2 ((15 * m : ℝ) / (t : ℝ) ^ (0.7 : ℝ)) := by
    intro m t ms r
    simp only [kindTimeCommitment]
    by_cases ht : t = 1
    · subst ht
      norm_num [Real.one_rpow]
    · rw [if_neg ht]
      norm_num
  have hexam : ∀ (et : ExamType) (c : ℕ) (g loc : String),
      kindTimeCommitment (.exam et c g loc) =
        (if et = .quiz then (2 : ℝ) else if et = .final then 4 else 3) * (c : ℕ) := by
    intro et c g loc
    cases et with
    | quiz =>
      simp only [kindTimeCommitment]
      norm_num
      exact round2_eq_self_of_mul_int _ (200 * c) (by push_cast; ring)
    | final =>
      simp only [kindTimeCommitment]
      norm_num
      exact round2_eq_self_of_mul_int _ (400 * c) (by push_cast; ring)
    | midterm =>
      simp only [kindTimeCommitment]
      norm_num
      exact round2_eq_self_of_mul_int _ (300 * c) (by push_cast; ring)
    | exam =>
      simp only [kindTimeCommitment]
      norm_num
      exact round2_eq_self_of_mul_int _ (300 * c) (by push_cast; ring)
  refine ⟨fun _ _ _ _ _ _ _ m t ms r => hproj m t ms r,
    fun _ _ _ _ _ _ _ et c g loc => hexam et c g loc, ?_, ?_⟩
  · show kindTimeCommitment (.project 3 4 [] "") = 17.05
    rw [hproj 3 4 [] ""]
    have hgt := four_rpow_gt
    have hlt := four_rpow_lt
    have hpos : (0 : ℝ) < (4 : ℝ) ^ (0.7 : ℝ) := lt_trans (by norm_num) hgt
    have h1 : (4500 : ℝ) / ((4 : ℝ) ^ (0.7 : ℝ)) < 4500 / 2.639 :=
      div_lt_div_of_pos_left (by norm_num) (by norm_num) hgt
    have h2 : (4500 : ℝ) / 2.64 < 4500 / ((4 : ℝ) ^ (0.7 : ℝ)) :=
      div_lt_div_of_pos_left (by norm_num) hpos hlt
    rw [round2, show ((15 * (3 : ℕ) : ℝ) / (((4 : ℕ) : ℝ)) ^ (0.7 : ℝ)) * 100 =
      4500 / ((4 : ℝ) ^ (0.7 : ℝ)) by push_cast; ring]
    rw [round_eq]
    have hfloor : ⌊(4500 : ℝ) / ((4 : ℝ) ^ (0.7 : ℝ)) + 1 / 2⌋ = 1705 := by
      apply Int.floor_eq_iff.2
      constructor
      · push_cast
        nlinarith
      · push_cast
        nlinarith
    rw [hfloor]
    norm_num
  · show kindTimeCommitment (.exam .final 6 "" "TBA") = 24
    rw [hexam .final 6 "" "TBA", if_neg (by decide), if_pos rfl]
    norm_num

/-! ## Weekly workload buckets (C3) -/

theorem length_weekStep (today : ℤ) (w : ℕ) (acc : List ℝ) (i : Item) :
    (weekStep today w acc i).length = acc.length := by
  unfold weekStep
  split
  · rfl
  · split
    · rfl
    · split
      · exact List.length_set acc _ _
      · rfl

theorem weekStep_getD (today : ℤ) (w : ℕ) (acc : List ℝ) (i : Item) (k : ℕ)
    (hlen : acc.length = w) (hk : k < w) :
    (weekStep today w acc i).getD k 0 =
      if inWeekBucket today k i then acc.getD k 0 + calculate_time_commitment i
      else acc.getD k 0 := by
  unfold weekStep inWeekBucket
  split
  · rename_i hp
    simp
  · rename_i due hp
    by_cases hneg : due - today < 0
    · rw [if_pos hneg]
      have hb : ¬(0 ≤ due - today ∧ (due - today).toNat / 7 = k) := by
        intro hc
        exact absurd hneg (not_lt.2 hc.1)
      rw [if_neg (by simpa using hb)]
    · rw [if_neg hneg]
      by_cases hw : (due - today).toNat / 7 < w
      · rw [if_pos hw]
        by_cases hik : (due - today).toNat / 7 = k
        · have hb : (0 ≤ due - today ∧ (due - today).toNat / 7 = k) :=
            ⟨not_lt.1 hneg, hik⟩
          rw [if_pos (by simpa using hb)]
          rw [hik]
          simp only [List.getD_eq_getElem?_getD]
          rw [List.getElem?_set_self (by rw [hlen]; exact hk)]
          rfl
        · have hb : ¬(0 ≤ due - today ∧ (due - today).toNat / 7 = k) := by
            intro hc
            exact hik hc.2
          rw [if_neg (by simpa using hb)]
          simp only [List.getD_eq_getElem?_getD]
          rw [List.getElem?_set_ne hik]
      · rw [if_neg hw]
        have hik : (due - today).toNat / 7 ≠ k := by
          intro hc
          exact hw (hc ▸ hk)
        have hb : ¬(0 ≤ due - today ∧ (due - today).toNat / 7 = k) := by
          intro hc
          exact hik hc.2
        rw [if_neg (by simpa using hb)]

theorem weekly_fold_getD (today : ℤ) (w : ℕ) (items : List Item) :
    ∀ (acc : List ℝ), acc.length = w → ∀ k, k < w →
      (items.foldl (weekStep today w) acc).getD k 0 =
        acc.getD k 0 +
          ((items.filter (fun i => inWeekBucket today k i)).map
            calculate_time_commitment).sum := by
  induction items with
  | nil =>
    intro acc _ k _
    simp
  | cons i rest ih =>
    intro acc hlen k hk
    rw [List.foldl_cons, List.filter_cons]
    have hstep := weekStep_getD today w acc i k hlen hk
    have hlen2 : (weekStep today w acc i).length = w := by
      rw [length_weekStep, hlen]
    by_cases hb : inWeekBucket today k i = true
    · rw [if_pos (by simpa using hb)]
      rw [ih (weekStep today w acc i) hlen2 k hk, hstep, if_pos hb]
      rw [List.map_cons, List.sum_cons]
      ring
    · rw [if_neg (by simpa using hb)]
      rw [ih (weekStep today w acc i) hlen2 k hk, hstep, if_neg hb]

/-- C3 (amended): for positive `weeks_ahead`, `calculate_weekly_workload`
returns one `("Week k+1", hours)` entry per week, where `hours` is the
rounded sum of `calculate_time_commitment()` over every item — completed
or not — whose due date parses, is not in the past, and falls in week
`floor(days_delta / 7)`; items with unparseable or past due dates are
skipped.  (The code does not exclude completed items; see the
counterexample.) -/
theorem weekly_workload_spec :
    ∀ (today weeks_ahead : ℤ) (p : Planner) (l : List (String × ℝ)),
      0 < weeks_ahead →
      calculate_weekly_workload today weeks_ahead p = .ok l →
      l.length = weeks_ahead.toNat ∧
      ∀ k, k < weeks_ahead.toNat →
        l.getD k ("", 0) =
          ("Week " ++ toString (k + 1),
           round2 (((p.items.filter (fun i => inWeekBucket today k i)).map
             calculate_time_commitment).sum)) := by
  intro today weeks_ahead p l hpos h
  unfold calculate_weekly_workload at h
  rw [if_neg (not_le.2 hpos)] at h
  injection h with h
  subst h
  constructor
  · simp
  · intro k hk
    have hrep : (List.replicate weeks_ahead.toNat (0 : ℝ)).length = weeks_ahead.toNat :=
      List.length_replicate _ _
    have hfold := weekly_fold_getD today weeks_ahead.toNat p.items
      (List.replicate weeks_ahead.toNat (0 : ℝ)) hrep k hk
    have hrep0 : (List.replicate weeks_ahead.toNat (0 : ℝ)).getD k 0 = 0 := by
      simp [List.getD_eq_getElem?_getD, List.getElem?_replicate, hk]
    rw [hrep0, zero_add] at hfold
    simp only [List.getD_eq_getElem?_getD, List.getElem?_map, List.getElem?_range, hk,
      if_pos hk]
    simp
    rw [← List.getD_eq_getElem?_getD, hfold]

theorem weekStep_hw1_eval :
    weekStep jan1 1 (List.replicate 1 (0 : ℝ)) hw1Completed =
      [(0 : ℝ) + ((2 : ℚ) : ℝ)] := by
  have hp : parseDate hw1Completed.due_date = some (jan1 + 1) := by decide
  unfold weekStep
  rw [hp]
  norm_num
  rfl

/-- Witness for C3 on a concrete planner with one item due tomorrow. -/
theorem weekly_workload_spec_witness :
    ∃ l, calculate_weekly_workload jan1 1
        { student_name := "Rhea", items := [hw1Completed] } = .ok l ∧
      l.length = (1 : ℤ).toNat ∧
      ∀ k, k < (1 : ℤ).toNat →
        l.getD k ("", 0) =
          ("Week " ++ toString (k + 1),
           round2 ((((Planner.mk "Rhea" [hw1Completed]).items.filter
             (fun i => inWeekBucket jan1 k i)).map calculate_time_commitment).sum)) :=
  ⟨_, rfl, weekly_workload_spec jan1 1
    { student_name := "Rhea", items := [hw1Completed] } _ (by decide) rfl⟩

/-- Counterexample to C3 as stated: a planner whose only item is completed
(2.0 estimated hours, due tomorrow) yields a "Week 1" bucket of 2.0, not
0 — completed items do contribute to `calculate_weekly_workload`. -/
theorem weekly_workload_counts_completed :
    ∃ l, calculate_weekly_workload jan1 1
        { student_name := "Rhea", items := [hw1Completed] } = .ok l ∧
      l.getD 0 ("", 0) = ("Week 1", 2) ∧
    hw1Completed.status = .completed := by
  refine ⟨_, rfl, ?_, rfl⟩
  show (List.map _ (List.range (1 : ℤ).toNat)).getD 0 ("", 0) = ("Week 1", 2)
  rw [show ((1 : ℤ).toNat) = 1 from rfl]
  simp only [List.range_succ, List.range_zero, List.nil_append, List.map_cons,
    List.map_nil, List.foldl_cons, List.foldl_nil]
  rw [weekStep_hw1_eval]
  show (("Week " ++ toString (0 + 1), round2 ([(0 : ℝ) + ((2 : ℚ) : ℝ)].getD 0 0)) :
    String × ℝ) = ("Week 1", 2)
  have h2 : round2 ([(0 : ℝ) + ((2 : ℚ) : ℝ)].getD 0 0) = 2 := by
    show round2 ((0 : ℝ) + ((2 : ℚ) : ℝ)) = 2
    rw [round2_eq_self_of_mul_int _ 200 (by push_cast; ring)]
    norm_num
  rw [h2]
  rfl

/-! ## Round-trip infrastructure (C1) -/

theorem mkBase_ok (title due_date course_code : String) (weight : ℚ) (k : ItemKind)
    (i : Item) (h : mkBase title due_date course_code weight k = .ok i) :
    i.kind = k ∧ i.status = .not_started := by
  unfold mkBase at h
  split at h
  · exact absurd h (by simp)
  · split at h
    · exact absurd h (by simp)
    · split at h
      · exact absurd h (by simp)
      · split at h
        · exact absurd h (by simp)
        · injection h with h
          subst h
          exact ⟨rfl, rfl⟩

theorem mkAssignment_ok (title due_date course_code : String) (weight est : ℚ)
    (i : Item) (h : mkAssignment title due_date course_code weight est = .ok i) :
    i.kind = .assignment est "" "" ∧ i.status = .not_started := by
  unfold mkAssignment at h
  split at h
  · exact absurd h (by simp)
  · rename_i j hj
    split at h
    · exact absurd h (by simp)
    · injection h with h
      subst h
      exact mkBase_ok _ _ _ _ _ _ hj

theorem mkProject_ok (title due_date course_code : String) (weight : ℚ)
    (m t : ℤ) (i : Item)
    (h : mkProject title due_date course_code weight m t = .ok i) :
    i.kind = .project m.toNat t.toNat [] "" ∧ i.status = .not_started := by
  unfold mkProject at h
  split at h
  · exact absurd h (by simp)
  · rename_i j hj
    split at h
    · exact absurd h (by simp)
    · split at h
      · exact absurd h (by simp)
      · injection h with h
        subst h
        exact mkBase_ok _ _ _ _ _ _ hj

theorem mkExam_ok (title due_date course_code : String) (weight : ℚ)
    (ets : String) (ch : ℤ) (i : Item)
    (h : mkExam title due_date course_code weight ets ch = .ok i) :
    ∃ et, parseExamType ets = some et ∧
      i.kind = .exam et ch.toNat "" "TBA" ∧ i.status = .not_started := by
  unfold mkExam at h
  split at h
  · exact absurd h (by simp)
  · rename_i et het
    split at h
    · exact absurd h (by simp)
    · rename_i j hj
      split at h
      · exact absurd h (by simp)
      · injection h with h
        subst h
        exact ⟨et, het, mkBase_ok _ _ _ _ _ _ hj⟩

theorem add_notes_preserves (n : String) (i : Item) :
    (add_notes n i).status = i.status ∧
      kindTimeCommitment (add_notes n i).kind = kindTimeCommitment i.kind := by
  refine ⟨rfl, ?_⟩
  cases hk : i.kind <;> simp [add_notes, hk, kindTimeCommitment]

theorem set_instructions_preserves (s : String) (i : Item) :
    (set_instructions s i).status = i.status ∧
      kindTimeCommitment (set_instructions s i).kind = kindTimeCommitment i.kind := by
  refine ⟨rfl, ?_⟩
  cases hk : i.kind <;> simp [set_instructions, hk, kindTimeCommitment]

theorem set_repository_preserves (r : String) (i : Item) :
    (set_repository r i).status = i.status ∧
      kindTimeCommitment (set_repository r i).kind = kindTimeCommitment i.kind := by
  refine ⟨rfl, ?_⟩
  cases hk : i.kind <;> simp [set_repository, hk, kindTimeCommitment]

theorem set_study_guide_preserves (g : String) (i : Item) :
    (set_study_guide g i).status = i.status ∧
      kindTimeCommitment (set_study_guide g i).kind = kindTimeCommitment i.kind := by
  refine ⟨rfl, ?_⟩
  cases hk : i.kind <;> simp [set_study_guide, hk, kindTimeCommitment]

theorem set_location_preserves (l : String) (i : Item) :
    (set_location l i).status = i.status ∧
      kindTimeCommitment (set_location l i).kind = kindTimeCommitment i.kind := by
  refine ⟨rfl, ?_⟩
  cases hk : i.kind <;> simp [set_location, hk, kindTimeCommitment]

theorem add_milestone_preserves (t dd : String) (i j : Item)
    (h : add_milestone t dd i = .ok j) :
    j.status = i.status ∧ kindTimeCommitment j.kind = kindTimeCommitment i.kind := by
  unfold add_milestone at h
  split at h
  · exact absurd h (by simp)
  · injection h with h
    subst h
    refine ⟨rfl, ?_⟩
    cases hk : i.kind <;> simp [hk, kindTimeCommitment]

theorem addMilestones_preserves (ms : List (Option String × Option String)) :
    ∀ (i j : Item), addMilestones ms i = .ok j →
      j.status = i.status ∧ kindTimeCommitment j.kind = kindTimeCommitment i.kind := by
  induction ms with
  | nil =>
    intro i j h
    injection h with h
    subst h
    exact ⟨rfl, rfl⟩
  | cons td rest ih =>
    intro i j h
    rcases td with ⟨t?, d?⟩
    rcases t? with _ | t
    · simp only [addMilestones] at h
      exact ih i j h
    · rcases d? with _ | dd
      · simp only [addMilestones] at h
        exact ih i j h
      · simp only [addMilestones] at h
        by_cases htd : t ≠ "" ∧ dd ≠ ""
        · rw [if_pos htd] at h
          rcases hml : add_milestone t dd i with e | i2 <;> rw [hml] at h
          · exact absurd h (by simp)
          · obtain ⟨h1, h2⟩ := ih i2 j h
            obtain ⟨h3, h4⟩ := add_milestone_preserves t dd i i2 hml
            exact ⟨h1.trans h3, h2.trans h4⟩
        · rw [if_neg htd] at h
          exact ih i j h

theorem mark_completed_fst_kind (todayStr : String) (sc : ℚ) (sub : Option String)
    (i : Item) : (mark_completed todayStr sc sub i).1.kind = i.kind := by
  unfold mark_completed
  split
  · rfl
  · rcases sub with _ | s
    · rfl
    · dsimp only
      split
      · rfl
      · split <;> rfl

theorem mark_completed_none_status (todayStr : String) (sc : ℚ) (i i2 : Item)
    (h : mark_completed todayStr sc none i = (i2, none)) :
    i2.status = .completed := by
  unfold mark_completed at h
  split at h
  · exact absurd h (by simp)
  · injection h with h _
    subst h
    rfl

theorem restoreStatus_kind (todayStr : String) (d : RawItem) (i : Item) :
    (restoreStatus todayStr d i).kind = i.kind := by
  unfold restoreStatus
  rcases hd : d.status with _ | st
  · rfl
  · rcases hsc : d.score with _ | sc
    · cases st <;> rfl
    · cases st
      · rfl
      · rfl
      · rcases hmc : mark_completed todayStr sc none i with ⟨i2, e⟩
        dsimp only
        rw [hmc]
        cases e
        · have := mark_completed_fst_kind todayStr sc none i
          rw [hmc] at this
          exact this
        · rfl

theorem restoreStatus_status (todayStr : String) (d : RawItem) (i : Item) (s : Status)
    (hd : d.status = some s) : (restoreStatus todayStr d i).status = s := by
  unfold restoreStatus
  rw [hd]
  rcases hsc : d.score with _ | sc
  · cases s <;> rfl
  · cases s
    · rfl
    · rfl
    · rcases hmc : mark_completed todayStr sc none i with ⟨i2, e⟩
      dsimp only
      rw [hmc]
      cases e
      · exact mark_completed_none_status todayStr sc i i2 hmc
      · rfl

/-- Core of C1: an item whose serialized dict deserializes successfully
comes back with the same status and the same time commitment. -/
theorem item_roundtrip (todayStr : String) (i : Item)
    (h : (item_from_dict todayStr (item_to_dict i)).isOk = true) :
    ∃ i2, item_from_dict todayStr (item_to_dict i) = .ok i2 ∧
      i2.status = i.status ∧ kindTimeCommitment i2.kind = kindTimeCommitment i.kind := by
  obtain ⟨ti, dd, cc, w, st, sc, sub, k⟩ := i
  cases k with
  | assignment est n ins =>
    simp only [item_to_dict, get_item_type, emptyRawItem, item_from_dict,
      Option.getD_some,
      show strContains (strUpper "ASSIGNMENT") "ASSIGNMENT" = true from by decide,
      if_true] at h ⊢
    rcases hmk : mkAssignment ti dd cc w est with e | j
    · rw [hmk] at h
      simp [Except.isOk, Except.toBool] at h
    · refine ⟨_, rfl, ?_, ?_⟩
      · exact restoreStatus_status todayStr _ _ st rfl
      · rw [restoreStatus_kind]
        have hj := (mkAssignment_ok ti dd cc w est j hmk).1
        have hcj : kindTimeCommitment j.kind = kindTimeCommitment (.assignment est n ins) := by
          rw [hj]
          simp [kindTimeCommitment]
        by_cases hb1 : truthy (some n) = true <;>
          by_cases hb2 : truthy (some ins) = true <;>
          simp only [hb1, hb2, eq_self_iff_true, Bool.false_eq_true, if_true, if_false]
        · rw [(set_instructions_preserves ins _).2, (add_notes_preserves n j).2, hcj]
        · rw [(add_notes_preserves n j).2, hcj]
        · rw [(set_instructions_preserves ins j).2, hcj]
        · exact hcj
  | project m t ms r =>
    simp only [item_to_dict, get_item_type, emptyRawItem, item_from_dict,
      Option.getD_some,
      show strContains (strUpper "PROJECT") "ASSIGNMENT" = false from by decide,
      show strContains (strUpper "PROJECT") "PROJECT" = true from by decide,
      if_true, Bool.false_eq_true, if_false] at h ⊢
    rcases hmk : mkProject ti dd cc w (m : ℤ) (t : ℤ) with e | j
    · rw [hmk] at h
      simp [Except.isOk, Except.toBool] at h
    · dsimp only
      rcases hml : addMilestones (ms.map (fun td => (some td.1, some td.2))) j
          with e | j2
      · rw [hmk] at h
        dsimp only at h
        rw [hml] at h
        simp [Except.isOk, Except.toBool] at h
      · rw [hml]
        refine ⟨_, rfl, ?_, ?_⟩
        · exact restoreStatus_status todayStr _ _ st rfl
        · rw [restoreStatus_kind]
          have hj := (mkProject_ok ti dd cc w (m : ℤ) (t : ℤ) j hmk).1
          have hcj : kindTimeCommitment j.kind =
              kindTimeCommitment (.project m t ms r) := by
            rw [hj]
            simp [kindTimeCommitment]
          have hcj2 := (addMilestones_preserves _ j j2 hml).2
          by_cases hb : truthy (some r) = true <;>
            simp only [hb, eq_self_iff_true, Bool.false_eq_true, if_true, if_false]
          · rw [(set_repository_preserves r j2).2, hcj2, hcj]
          · rw [hcj2, hcj]
  | exam et c g loc =>
    cases et with
    | midterm =>
      simp only [item_to_dict, get_item_type, examTypeStr, emptyRawItem, item_from_dict,
        Option.getD_some,
        show strContains (strUpper ("EXAM-" ++ strUpper "midterm")) "ASSIGNMENT" = false
          from by decide,
        show strContains (strUpper ("EXAM-" ++ strUpper "midterm")) "PROJECT" = false
          from by decide,
        show strContains (strUpper ("EXAM-" ++ strUpper "midterm")) "EXAM" = true
          from by decide,
        if_true, Bool.false_eq_true, if_false] at h ⊢
      rcases hmk : mkExam ti dd cc w "midterm" (c : ℤ) with e | j
      · rw [hmk] at h
        simp [Except.isOk, Except.toBool] at h
      · refine ⟨_, rfl, ?_, ?_⟩
        · exact restoreStatus_status todayStr _ _ st rfl
        · rw [restoreStatus_kind]
          obtain ⟨et2, het2, hj, _⟩ := mkExam_ok ti dd cc w "midterm" (c : ℤ) j hmk
          rw [show parseExamType "midterm" = some ExamType.midterm from by decide] at het2
          injection het2 with het2
          subst het2
          have hcj : kindTimeCommitment j.kind =
              kindTimeCommitment (.exam .midterm c g loc) := by
            rw [hj]
            simp [kindTimeCommitment]
          by_cases hb1 : truthy (some g) = true <;>
            by_cases hb2 : truthy (some loc) = true <;>
            simp only [hb1, hb2, eq_self_iff_true, Bool.false_eq_true, if_true, if_false]
          · rw [(set_location_preserves loc _).2, (set_study_guide_preserves g j).2, hcj]
          · rw [(set_study_guide_preserves g j).2, hcj]
          · rw [(set_location_preserves loc j).2, hcj]
          · exact hcj
    | final =>
      simp only [item_to_dict, get_item_type, examTypeStr, emptyRawItem, item_from_dict,
        Option.getD_some,
        show strContains (strUpper ("EXAM-" ++ strUpper "final")) "ASSIGNMENT" = false
          from by decide,
        show strContains (strUpper ("EXAM-" ++ strUpper "final")) "PROJECT" = false
          from by decide,
        show strContains (strUpper ("EXAM-" ++ strUpper "final")) "EXAM" = true
          from by decide,
        if_true, Bool.false_eq_true, if_false] at h ⊢
      rcases hmk : mkExam ti dd cc w "final" (c : ℤ) with e | j
      · rw [hmk] at h
        simp [Except.isOk, Except.toBool] at h
      · refine ⟨_, rfl, ?_, ?_⟩
        · exact restoreStatus_status todayStr _ _ st rfl
        · rw [restoreStatus_kind]
          obtain ⟨et2, het2, hj, _⟩ := mkExam_ok ti dd cc w "final" (c : ℤ) j hmk
          rw [show parseExamType "final" = some ExamType.final from by decide] at het2
          injection het2 with het2
          subst het2
          have hcj : kindTimeCommitment j.kind =
              kindTimeCommitment (.exam .final c g loc) := by
            rw [hj]
            simp [kindTimeCommitment]
          by_cases hb1 : truthy (some g) = true <;>
            by_cases hb2 : truthy (some loc) = true <;>
            simp only [hb1, hb2, eq_self_iff_true, Bool.false_eq_true, if_true, if_false]
          · rw [(set_location_preserves loc _).2, (set_study_guide_preserves g j).2, hcj]
          · rw [(set_study_guide_preserves g j).2, hcj]
          · rw [(set_location_preserves loc j).2, hcj]
          · exact hcj
    | quiz =>
      simp only [item_to_dict, get_item_type, examTypeStr, emptyRawItem, item_from_dict,
        Option.getD_some,
        show strContains (strUpper ("EXAM-" ++ strUpper "quiz")) "ASSIGNMENT" = false
          from by decide,
        show strContains (strUpper ("EXAM-" ++ strUpper "quiz")) "PROJECT" = false
          from by decide,
        show strContains (strUpper ("EXAM-" ++ strUpper "quiz")) "EXAM" = true
          from by decide,
        if_true, Bool.false_eq_true, if_false] at h ⊢
      rcases hmk : mkExam ti dd cc w "quiz" (c : ℤ) with e | j
      · rw [hmk] at h
        simp [Except.isOk, Except.toBool] at h
      · refine ⟨_, rfl, ?_, ?_⟩
        · exact restoreStatus_status todayStr _ _ st rfl
        · rw [restoreStatus_kind]
          obtain ⟨et2, het2, hj, _⟩ := mkExam_ok ti dd cc w "quiz" (c : ℤ) j hmk
          rw [show parseExamType "quiz" = some ExamType.quiz from by decide] at het2
          injection het2 with het2
          subst het2
          have hcj : kindTimeCommitment j.kind =
              kindTimeCommitment (.exam .quiz c g loc) := by
            rw [hj]
            simp [kindTimeCommitment]
          by_cases hb1 : truthy (some g) = true <;>
            by_cases hb2 : truthy (some loc) = true <;>
            simp only [hb1, hb2, eq_self_iff_true, Bool.false_eq_true, if_true, if_false]
          · rw [(set_location_preserves loc _).2, (set_study_guide_preserves g j).2, hcj]
          · rw [(set_study_guide_preserves g j).2, hcj]
          · rw [(set_location_preserves loc j).2, hcj]
          · exact hcj
    | exam =>
      simp only [item_to_dict, get_item_type, examTypeStr, emptyRawItem, item_from_dict,
        Option.getD_some,
        show strContains (strUpper ("EXAM-" ++ strUpper "exam")) "ASSIGNMENT" = false
          from by decide,
        show strContains (strUpper ("EXAM-" ++ strUpper "exam")) "PROJECT" = false
          from by decide,
        show strContains (strUpper ("EXAM-" ++ strUpper "exam")) "EXAM" = true
          from by decide,
        if_true, Bool.false_eq_true, if_false] at h ⊢
      rcases hmk : mkExam ti dd cc w "exam" (c : ℤ) with e | j
      · rw [hmk] at h
        simp [Except.isOk, Except.toBool] at h
      · refine ⟨_, rfl, ?_, ?_⟩
        · exact restoreStatus_status todayStr _ _ st rfl
        · rw [restoreStatus_kind]
          obtain ⟨et2, het2, hj, _⟩ := mkExam_ok ti dd cc w "exam" (c : ℤ) j hmk
          rw [show parseExamType "exam" = some ExamType.exam from by decide] at het2
          injection het2 with het2
          subst het2
          have hcj : kindTimeCommitment j.kind =
              kindTimeCommitment (.exam .exam c g loc) := by
            rw [hj]
            simp [kindTimeCommitment]
          by_cases hb1 : truthy (some g) = true <;>
            by_cases hb2 : truthy (some loc) = true <;>
            simp only [hb1, hb2, eq_self_iff_true, Bool.false_eq_true, if_true, if_false]
          · rw [(set_location_preserves loc _).2, (set_study_guide_preserves g j).2, hcj]
          · rw [(set_study_guide_preserves g j).2, hcj]
          · rw [(set_location_preserves loc j).2, hcj]
          · exact hcj

theorem roundtrip_list (todayStr : String) (items : List Item)
    (h : ∀ i ∈ items, (item_from_dict todayStr (item_to_dict i)).isOk = true) :
    ∃ l2, (items.map item_to_dict).filterMap
        (fun d => (item_from_dict todayStr d).toOption) = l2 ∧
      l2.length = items.length ∧
      ∀ acc : ℝ, l2.foldl workloadStep acc = items.foldl workloadStep acc := by
  induction items with
  | nil => exact ⟨[], rfl, rfl, fun _ => rfl⟩
  | cons i rest ih =>
    obtain ⟨i2, hi2, hst, hcw⟩ :=
      item_roundtrip todayStr i (h i (List.mem_cons_self i rest))
    obtain ⟨l2, hl2, hlen, hfold⟩ := ih (fun j hj => h j (List.mem_cons_of_mem i hj))
    refine ⟨i2 :: l2, ?_, by simp [hlen], ?_⟩
    · rw [List.map_cons, List.filterMap_cons, hi2]
      simp only [Except.toOption] at hl2 ⊢
      rw [hl2]
    · intro acc
      rw [List.foldl_cons, List.foldl_cons]
      have hw : workloadStep acc i2 = workloadStep acc i := by
        unfold workloadStep calculate_time_commitment
        rw [hst, hcw]
      rw [hw, hfold]

/-- C1: if every item of a planner individually survives serialization,
then loading the JSON produced by `save_to_json` yields a planner with the
same number of items and exactly the same `get_total_workload()`. -/
theorem save_load_roundtrip :
    ∀ (todayStr : String) (p q : Planner),
      (∀ i ∈ p.items, (item_from_dict todayStr (item_to_dict i)).isOk = true) →
      ∃ q2, load_from_json todayStr (.content (some (.object (save_to_json p)))) q = .ok q2 ∧
        q2.items.length = p.items.length ∧
        get_total_workload q2 = get_total_workload p := by
  intro todayStr p q h
  obtain ⟨l2, hl2, hlen, hfold⟩ := roundtrip_list todayStr p.items h
  refine ⟨{ student_name := p.student_name, items := l2 }, ?_, hlen, ?_⟩
  · have hload : load_from_json todayStr (.content (some (.object (save_to_json p)))) q =
        .ok { student_name := p.student_name,
              items := (p.items.map item_to_dict).filterMap
                (fun d => (item_from_dict todayStr d).toOption) } := rfl
    rw [hload, hl2]
  · show round2 (l2.foldl workloadStep 0) = round2 (p.items.foldl workloadStep 0)
    rw [hfold 0]

/-- Witness for C1 on a concrete one-item planner. -/
theorem save_load_roundtrip_witness :
    ∃ q2, load_from_json "2025-01-01"
        (.content (some (.object (save_to_json
          { student_name := "Rhea",
            items := [{ title := "HW", due_date := "2025-01-02", course_code := "C1",
                        weight := 10, status := .not_started, score := none,
                        submission_date := none, kind := .assignment 2 "" "" }] }))))
        { student_name := "Empty", items := [] } = .ok q2 ∧
      q2.items.length =
        (Planner.mk "Rhea"
          [{ title := "HW", due_date := "2025-01-02", course_code := "C1",
             weight := 10, status := .not_started, score := none,
             submission_date := none, kind := .assignment 2 "" "" }]).items.length ∧
      get_total_workload q2 =
        get_total_workload (Planner.mk "Rhea"
          [{ title := "HW", due_date := "2025-01-02", course_code := "C1",
             weight := 10, status := .not_started, score := none,
             submission_date := none, kind := .assignment 2 "" "" }]) :=
  save_load_roundtrip "2025-01-01"
    (Planner.mk "Rhea"
      [{ title := "HW", due_date := "2025-01-02", course_code := "C1",
         weight := 10, status := .not_started, score := none,
         submission_date := none, kind := .assignment 2 "" "" }])
    (Planner.mk "Empty" []) (by decide)

end AcademicPlannerModel

